import Mathlib

/-!
Shallow embedding of the RAG pipeline in src/rag_chain.py.

External collaborators (the Sarvam translation, chat-completion, transcription
and synthesis HTTP services, the ChromaDB passage store, and the base64
decoder) are modelled as an oracle record `Services`: each oracle either
returns the parsed payload the Python client code would see, or fails with
the Python exception it would raise (`PyError`). Raised exceptions are
modelled as `Except.error`; a network round trip is recorded in an explicit
call log (`List Call`) so that claims about which services are invoked can be
stated. Python strings are modelled as Lean `String` (a sequence of code
points), dict keys that may be absent as `Option`.
-/

/-- A Python exception surfaced by a service call: either a
`requests.exceptions.HTTPError` carrying the response status code and body
text, or any other exception carrying its `str(e)` description. -/
inductive PyError where
  | httpError (status : Nat) (body : String)
  | otherError (msg : String)
  deriving DecidableEq, Repr

/-- One network round trip to an external collaborator, as recorded in the
call log of the embedded functions. -/
inductive Call where
  | translateCall (text source_lang target_lang : String)
  | retrieveCall (query_en : String) (n_results : Nat)
  | generateCall (system_prompt user_message : String)
  | sttCall (lang_code : String)
  | ttsCall (text lang_code speaker : String)
  deriving DecidableEq, Repr

/-- Metadata map attached to one retrieved document; the keys `kanda`,
`topic` and `characters` may be absent (`meta.get` defaults are applied by
`retrieve_passages`). -/
structure RawMeta where
  kanda : Option String
  topic : Option String
  characters : Option String
  deriving DecidableEq, Repr

/-- JSON body of a speech-to-text response; the `transcript` and
`language_code` fields may be absent (`result.get` defaults are applied by
`speech_to_text`). -/
structure SttResponse where
  transcript : Option String
  language_code : Option String
  deriving DecidableEq, Repr

/-- The external collaborators of the pipeline. Each field models one remote
call site of src/rag_chain.py: it maps the request data to either the parsed
successful payload or the Python exception the client code would raise
(non-2xx statuses surface as `PyError.httpError` via `raise_for_status`).
`b64decode` models the `base64.b64decode` library call used on synthesis
responses, which can itself raise. -/
structure Services where
  translate : String → String → String → Except PyError (Option String)
  retrieveRaw : String → Nat → Except PyError (List (String × RawMeta))
  generate : String → String → Except PyError String
  stt : List Nat → String → Except PyError SttResponse
  ttsConvert : String → String → String → Except String (List String)
  b64decode : String → Except String (List Nat)

/-- The `LANGUAGE_CODES` table: supported display name to Sarvam language
code. -/
def LANGUAGE_CODES : List (String × String) :=
  [("English", "en-IN"),
   ("Hindi", "hi-IN"),
   ("Tamil", "ta-IN"),
   ("Telugu", "te-IN"),
   ("Kannada", "kn-IN"),
   ("Malayalam", "ml-IN"),
   ("Bengali", "bn-IN"),
   ("Marathi", "mr-IN"),
   ("Gujarati", "gu-IN"),
   ("Punjabi", "pa-IN")]

/-- The inline lookup `LANGUAGE_CODES.get(language, "en-IN")` used by `ask`,
`speech_to_text` and `text_to_speech`. -/
def lookupLanguageCode (language : String) : String :=
  (LANGUAGE_CODES.lookup language).getD "en-IN"

/-- The `TTS_VOICES` table: display name to default Bulbul voice. -/
def TTS_VOICES : List (String × String) :=
  [("English", "shubh"),
   ("Hindi", "anushka"),
   ("Tamil", "abhilasha"),
   ("Telugu", "anushka"),
   ("Kannada", "anushka"),
   ("Malayalam", "anushka"),
   ("Bengali", "anushka"),
   ("Marathi", "anushka"),
   ("Gujarati", "anushka"),
   ("Punjabi", "anushka")]

/-- Embedding of `translate_text(text, source_lang, target_lang)`. Returns
the translated text together with the list of network calls issued. When
`source_lang == target_lang` the input is returned with no call. Otherwise
the Translation Service is called; a raised exception propagates to the
caller (`translate_text` has no try/except), and on success the response
field `translated_text` defaults to the original `text` when absent. -/
def translate_text (svc : Services) (text source_lang target_lang : String) :
    Except PyError String × List Call :=
  if source_lang = target_lang then
    (Except.ok text, [])
  else
    match svc.translate text source_lang target_lang with
    | Except.error e => (Except.error e, [Call.translateCall text source_lang target_lang])
    | Except.ok j => (Except.ok (j.getD text), [Call.translateCall text source_lang target_lang])

/-- A passage dict as built by `retrieve_passages`. -/
structure Passage where
  text : String
  kanda : String
  topic : String
  characters : String
  deriving DecidableEq, Repr

/-- Embedding of `retrieve_passages(query_en, n_results)`: queries the
passage store and maps each (document, metadata) pair to a passage dict,
defaulting absent metadata keys to the empty string. A store failure
propagates as a raised exception. -/
def retrieve_passages (svc : Services) (query_en : String) (n_results : Nat) :
    Except PyError (List Passage) × List Call :=
  match svc.retrieveRaw query_en n_results with
  | Except.error e => (Except.error e, [Call.retrieveCall query_en n_results])
  | Except.ok docs =>
      (Except.ok (docs.map fun d =>
        { text := d.1
          kanda := d.2.kanda.getD ""
          topic := d.2.topic.getD ""
          characters := d.2.characters.getD "" }),
       [Call.retrieveCall query_en n_results])

/-- The fixed persona system prompt of `generate_answer`. -/
def system_prompt : String :=
  "You are Valmiki, the sage-poet and author of the Ramayana. " ++
  "You have deep knowledge of all events, characters, and teachings of the Ramayana. " ++
  "Answer questions thoughtfully and accurately based on the provided context passages. " ++
  "If the context does not contain enough information, draw on your knowledge of the Ramayana. " ++
  "Keep answers concise (3-5 sentences) unless the question requires detail. " ++
  "Always respond in English — the response will be translated separately."

/-- One labelled context part: `[Passage i — kanda, Topic: topic]\ntext`
with a 1-based index `i`. -/
def contextPart (i : Nat) (p : Passage) : String :=
  "[Passage " ++ toString i ++ " — " ++ p.kanda ++ ", Topic: " ++ p.topic ++ "]\n" ++ p.text

/-- The context block of `generate_answer`: all labelled parts joined with
blank lines. -/
def contextBlock (passages : List Passage) : String :=
  String.intercalate "\n\n" (passages.enum.map fun ip => contextPart (ip.1 + 1) ip.2)

/-- The user message of `generate_answer`: context block plus question. -/
def userMessage (query_en : String) (passages : List Passage) : String :=
  "Context from the Ramayana:\n\n" ++ contextBlock passages ++
  "\n\nQuestion: " ++ query_en ++ "\n\nAnswer as Valmiki the sage:"

/-- Embedding of `generate_answer(query_en, passages)`: builds the prompt,
calls the chat-completion service, and strips the returned content. A raised
exception (transport, non-2xx, malformed JSON) propagates to the caller. -/
def generate_answer (svc : Services) (query_en : String) (passages : List Passage) :
    Except PyError String × List Call :=
  match svc.generate system_prompt (userMessage query_en passages) with
  | Except.error e =>
      (Except.error e, [Call.generateCall system_prompt (userMessage query_en passages)])
  | Except.ok content =>
      (Except.ok content.trim,
       [Call.generateCall system_prompt (userMessage query_en passages)])

/-- The result dict of `ask`. The `query_en` field is present only on the
success path (`none` models an absent key). -/
structure PipelineResult where
  answer : Option String
  passages : List Passage
  language : String
  query_en : Option String
  error : Option String
  deriving DecidableEq, Repr

/-- The error message built by the two except branches of `ask`: the
HTTPError branch formats status code and response body, the generic branch
uses `str(e)`. -/
def pyErrorMessage : PyError → String
  | PyError.httpError status body => "API error: " ++ toString status ++ " — " ++ body
  | PyError.otherError msg => msg

/-- The dict returned by the except branches of `ask`. -/
def errorResult (language : String) (e : PyError) : PipelineResult :=
  { answer := none
    passages := []
    language := language
    query_en := none
    error := some (pyErrorMessage e) }

/-- Step 1 of `ask`: `query_en = query`, translated to English only when the
resolved code differs from en-IN. -/
def askStep1 (svc : Services) (query lang_code : String) :
    Except PyError String × List Call :=
  if lang_code ≠ "en-IN" then translate_text svc query lang_code "en-IN"
  else (Except.ok query, [])

/-- Step 4 of `ask`: the answer is translated back only when the resolved
code differs from en-IN. -/
def askStep4 (svc : Services) (answer_en lang_code : String) :
    Except PyError String × List Call :=
  if lang_code ≠ "en-IN" then translate_text svc answer_en "en-IN" lang_code
  else (Except.ok answer_en, [])

/-- Embedding of `ask(query, language)`: resolve the language code, then run
the four stages in order inside one try/except; the first raised exception
aborts the remaining stages and is converted to an error dict. -/
def ask (svc : Services) (query language : String) : PipelineResult × List Call :=
  let lang_code := lookupLanguageCode language
  match askStep1 svc query lang_code with
  | (Except.error e, log1) => (errorResult language e, log1)
  | (Except.ok query_en, log1) =>
    match retrieve_passages svc query_en 3 with
    | (Except.error e, log2) => (errorResult language e, log1 ++ log2)
    | (Except.ok passages, log2) =>
      match generate_answer svc query_en passages with
      | (Except.error e, log3) => (errorResult language e, log1 ++ log2 ++ log3)
      | (Except.ok answer_en, log3) =>
        match askStep4 svc answer_en lang_code with
        | (Except.error e, log4) => (errorResult language e, log1 ++ log2 ++ log3 ++ log4)
        | (Except.ok answer, log4) =>
          ({ answer := some answer
             passages := passages
             language := language
             query_en := some query_en
             error := none },
           log1 ++ log2 ++ log3 ++ log4)

/-- The result dict of `speech_to_text`. -/
structure TranscriptionResult where
  transcript : String
  language_code : String
  error : Option String
  deriving DecidableEq, Repr

/-- The error message built by the two except branches of `speech_to_text`:
the HTTPError branch formats status code and response body, the generic
branch uses `str(e)`. -/
def sttErrorMessage : PyError → String
  | PyError.httpError status body => "STT error: " ++ toString status ++ " — " ++ body
  | PyError.otherError msg => msg

/-- Embedding of `speech_to_text(audio_bytes, language)`: resolves the
language code, calls the transcription service, and converts any raised
exception into an error dict at its own boundary (HTTPError formatted with
status and body, other exceptions as `str(e)`). -/
def speech_to_text (svc : Services) (audio_bytes : List Nat) (language : String) :
    TranscriptionResult × List Call :=
  let lang_code := lookupLanguageCode language
  match svc.stt audio_bytes lang_code with
  | Except.error e =>
      ({ transcript := "", language_code := lang_code, error := some (sttErrorMessage e) },
       [Call.sttCall lang_code])
  | Except.ok result =>
      ({ transcript := result.transcript.getD ""
         language_code := result.language_code.getD lang_code
         error := none },
       [Call.sttCall lang_code])

/-- The result dict of `text_to_speech`. -/
structure SynthesisResult where
  audio_bytes : Option (List Nat)
  error : Option String
  deriving DecidableEq, Repr

/-- The length guard of `text_to_speech`: text longer than 2500 code points
is replaced by its first 2490 code points (the Python slice `text[:2490]`)
with `"..."` appended. -/
def truncateForTts (text : String) : String :=
  if text.length > 2500 then String.mk (text.data.take 2490) ++ "..." else text

/-- Embedding of `text_to_speech(text, language)`: resolves code and voice,
applies the length guard, then inside try/except calls the synthesis client,
indexes `audios[0]` (IndexError on an empty list) and base64-decodes it; any
raised exception becomes an error dict at this boundary. -/
def text_to_speech (svc : Services) (text language : String) :
    SynthesisResult × List Call :=
  let lang_code := lookupLanguageCode language
  let speaker := (TTS_VOICES.lookup language).getD "shubh"
  let sent := truncateForTts text
  match svc.ttsConvert sent lang_code speaker with
  | Except.error msg =>
      ({ audio_bytes := none, error := some msg }, [Call.ttsCall sent lang_code speaker])
  | Except.ok [] =>
      ({ audio_bytes := none, error := some "list index out of range" },
       [Call.ttsCall sent lang_code speaker])
  | Except.ok (first :: _) =>
      match svc.b64decode first with
      | Except.error msg =>
          ({ audio_bytes := none, error := some msg }, [Call.ttsCall sent lang_code speaker])
      | Except.ok bytes =>
          ({ audio_bytes := some bytes, error := none }, [Call.ttsCall sent lang_code speaker])

/-- Sub-string containment on code-point sequences, used to state that an
error message carries a status code or body verbatim. -/
def strContains (hay needle : String) : Prop :=
  needle.data <:+: hay.data

instance (hay needle : String) : Decidable (strContains hay needle) :=
  List.decidableInfix needle.data hay.data

/-- Discriminator for translation calls in a call log. -/
def Call.isTranslateCall : Call → Bool
  | Call.translateCall _ _ _ => true
  | _ => false

/-- Boolean success discriminator for an oracle outcome. -/
def exceptIsOk : Except ε α → Bool
  | Except.ok _ => true
  | Except.error _ => false

/-- A stub collaborator set on which every call succeeds, for concrete
evaluations. -/
def svcOk : Services where
  translate := fun _ _ _ => Except.ok (some "translated")
  retrieveRaw := fun _ _ =>
    Except.ok [("Hanuman leapt across the ocean to Lanka.",
      { kanda := some "Sundara Kanda", topic := some "Leap to Lanka",
        characters := some "Hanuman" })]
  generate := fun _ _ => Except.ok "Hanuman is the mighty son of Vayu."
  stt := fun _ _ => Except.ok { transcript := some "Who is Hanuman?", language_code := some "en-IN" }
  ttsConvert := fun _ _ _ => Except.ok ["QUJD"]
  b64decode := fun _ => Except.ok [65, 66, 67]

/-- A stub collaborator set whose translation service fails with a raised
HTTPError. -/
def svcTranslateDown : Services :=
  { svcOk with translate := fun _ _ _ => Except.error (PyError.httpError 500 "Internal Server Error") }

/-- A stub collaborator set whose passage store fails with a raised
exception. -/
def svcRetrieveDown : Services :=
  { svcOk with retrieveRaw := fun _ _ => Except.error (PyError.otherError "no collection found") }

/-- A stub collaborator set whose generation service fails with HTTP 500. -/
def svcGenerateDown : Services :=
  { svcOk with generate := fun _ _ => Except.error (PyError.httpError 500 "Internal Server Error") }

/-- A stub collaborator set whose passage store returns zero passages. -/
def svcEmptyStore : Services :=
  { svcOk with retrieveRaw := fun _ _ => Except.ok [] }

/-- A stub collaborator set on which every call fails. -/
def svcAllDown : Services where
  translate := fun _ _ _ => Except.error (PyError.otherError "connection refused")
  retrieveRaw := fun _ _ => Except.error (PyError.otherError "connection refused")
  generate := fun _ _ => Except.error (PyError.otherError "connection refused")
  stt := fun _ _ => Except.error (PyError.httpError 503 "Service Unavailable")
  ttsConvert := fun _ _ _ => Except.error "timeout"
  b64decode := fun _ => Except.error "Invalid base64-encoded string"

/-- A 2501 code-point input for exercising the synthesis length guard. -/
def longText : String := String.mk (List.replicate 2501 'a')

/-- Helper: the passage-store adapter always records exactly its one query
round trip, whatever the store outcome. -/
theorem retrieve_passages_log (svc : Services) (q : String) (n : Nat) :
    (retrieve_passages svc q n).2 = [Call.retrieveCall q n] := by
  rcases h : svc.retrieveRaw q n with e | d <;> simp [retrieve_passages, h]

/-- Helper: the generation adapter always records exactly its one chat
round trip, whatever the service outcome. -/
theorem generate_answer_log (svc : Services) (q : String) (ps : List Passage) :
    (generate_answer svc q ps).2 = [Call.generateCall system_prompt (userMessage q ps)] := by
  rcases h : svc.generate system_prompt (userMessage q ps) with e | c <;> simp [generate_answer, h]

/-- Helper: every run of ask returns either the error dict of some raised
exception or a success dict with a present answer and query_en. -/
theorem ask_shape (svc : Services) (query language : String) :
    (∃ e, (ask svc query language).1 = errorResult language e) ∨
    (∃ query_en answer passages, (ask svc query language).1 =
       { answer := some answer, passages := passages, language := language,
         query_en := some query_en, error := none }) := by
  unfold ask
  dsimp only
  rcases h1 : askStep1 svc query (lookupLanguageCode language) with ⟨r1, log1⟩
  cases r1 with
  | error e => exact Or.inl ⟨e, rfl⟩
  | ok query_en =>
    dsimp only
    rcases h2 : retrieve_passages svc query_en 3 with ⟨r2, log2⟩
    cases r2 with
    | error e => exact Or.inl ⟨e, rfl⟩
    | ok passages =>
      dsimp only
      rcases h3 : generate_answer svc query_en passages with ⟨r3, log3⟩
      cases r3 with
      | error e => exact Or.inl ⟨e, rfl⟩
      | ok answer_en =>
        dsimp only
        rcases h4 : askStep4 svc answer_en (lookupLanguageCode language) with ⟨r4, log4⟩
        cases r4 with
        | error e => exact Or.inl ⟨e, rfl⟩
        | ok answer => exact Or.inr ⟨query_en, answer, passages, rfl⟩

/-- C1: for every query string and every language display name, the dict
returned by ask has exactly one of its answer and error fields non-null: a
string answer with error none on success, a string error with answer none on
failure; never both, never neither. -/
theorem ask_answer_xor_error (svc : Services) (query language : String) :
    ((ask svc query language).1.answer.isSome ∧ (ask svc query language).1.error = none) ∨
    ((ask svc query language).1.answer = none ∧ (ask svc query language).1.error.isSome) := by
  rcases ask_shape svc query language with ⟨e, h⟩ | ⟨query_en, answer, passages, h⟩
  · rw [h]; exact Or.inr ⟨rfl, rfl⟩
  · rw [h]; exact Or.inl ⟨rfl, rfl⟩

/-- C2: if any stage of ask fails, the remaining stages are not executed:
the result is the error dict with answer none and passages empty, the call
log stops at the failing stage, and when the failure is an HTTPError the
error message contains the status code and the response body text. -/
theorem ask_failure_semantics (svc : Services) (query language : String) :
    (((ask svc query language).1.error.isSome →
        (ask svc query language).1.answer = none ∧ (ask svc query language).1.passages = [])) ∧
    (∀ e, lookupLanguageCode language ≠ "en-IN" →
        svc.translate query (lookupLanguageCode language) "en-IN" = Except.error e →
        ask svc query language =
          (errorResult language e,
           [Call.translateCall query (lookupLanguageCode language) "en-IN"])) ∧
    (∀ query_en log1 e,
        askStep1 svc query (lookupLanguageCode language) = (Except.ok query_en, log1) →
        svc.retrieveRaw query_en 3 = Except.error e →
        ask svc query language =
          (errorResult language e, log1 ++ [Call.retrieveCall query_en 3])) ∧
    (∀ query_en log1 passages e,
        askStep1 svc query (lookupLanguageCode language) = (Except.ok query_en, log1) →
        (retrieve_passages svc query_en 3).1 = Except.ok passages →
        svc.generate system_prompt (userMessage query_en passages) = Except.error e →
        ask svc query language =
          (errorResult language e,
           log1 ++ [Call.retrieveCall query_en 3] ++
             [Call.generateCall system_prompt (userMessage query_en passages)])) ∧
    (∀ query_en log1 passages answer_en e,
        askStep1 svc query (lookupLanguageCode language) = (Except.ok query_en, log1) →
        (retrieve_passages svc query_en 3).1 = Except.ok passages →
        (generate_answer svc query_en passages).1 = Except.ok answer_en →
        lookupLanguageCode language ≠ "en-IN" →
        svc.translate answer_en "en-IN" (lookupLanguageCode language) = Except.error e →
        ask svc query language =
          (errorResult language e,
           log1 ++ [Call.retrieveCall query_en 3] ++
             [Call.generateCall system_prompt (userMessage query_en passages)] ++
             [Call.translateCall answer_en "en-IN" (lookupLanguageCode language)])) ∧
    (∀ status body,
        (errorResult language (PyError.httpError status body)).error =
          some ("API error: " ++ toString status ++ " — " ++ body) ∧
        strContains (pyErrorMessage (PyError.httpError status body)) (toString status) ∧
        strContains (pyErrorMessage (PyError.httpError status body)) body) := by
  refine ⟨?_, ?_, ?_, ?_, ?_, ?_⟩
  · intro herr
    rcases ask_shape svc query language with ⟨e, h⟩ | ⟨q2, a2, p2, h⟩
    · rw [h]; exact ⟨rfl, rfl⟩
    · rw [h] at herr; simp at herr
  · intro e hne htr
    have h1 : askStep1 svc query (lookupLanguageCode language) =
        (Except.error e, [Call.translateCall query (lookupLanguageCode language) "en-IN"]) := by
      simp [askStep1, translate_text, hne, htr]
    unfold ask
    dsimp only
    rw [h1]
  · intro query_en log1 e h1 h2
    have h2f : retrieve_passages svc query_en 3 =
        (Except.error e, [Call.retrieveCall query_en 3]) := by
      simp [retrieve_passages, h2]
    unfold ask
    dsimp only
    rw [h1]
    dsimp only
    rw [h2f]
  · intro query_en log1 passages e h1 h2 h3
    have h2f : retrieve_passages svc query_en 3 =
        (Except.ok passages, [Call.retrieveCall query_en 3]) :=
      Prod.ext_iff.mpr ⟨h2, retrieve_passages_log svc query_en 3⟩
    have h3f : generate_answer svc query_en passages =
        (Except.error e, [Call.generateCall system_prompt (userMessage query_en passages)]) := by
      simp [generate_answer, h3]
    unfold ask
    dsimp only
    rw [h1]
    dsimp only
    rw [h2f]
    dsimp only
    rw [h3f]
  · intro query_en log1 passages answer_en e h1 h2 h3 hne htr
    have h2f : retrieve_passages svc query_en 3 =
        (Except.ok passages, [Call.retrieveCall query_en 3]) :=
      Prod.ext_iff.mpr ⟨h2, retrieve_passages_log svc query_en 3⟩
    have h3f : generate_answer svc query_en passages =
        (Except.ok answer_en, [Call.generateCall system_prompt (userMessage query_en passages)]) :=
      Prod.ext_iff.mpr ⟨h3, generate_answer_log svc query_en passages⟩
    have h4 : askStep4 svc answer_en (lookupLanguageCode language) =
        (Except.error e, [Call.translateCall answer_en "en-IN" (lookupLanguageCode language)]) := by
      have hne2 : ("en-IN" : String) ≠ lookupLanguageCode language := fun hcontra => hne hcontra.symm
      simp [askStep4, translate_text, hne, hne2, htr]
    unfold ask
    dsimp only
    rw [h1]
    dsimp only
    rw [h2f]
    dsimp only
    rw [h3f]
    dsimp only
    rw [h4]
  · intro status body
    refine ⟨rfl, ?_, ?_⟩
    · exact ⟨"API error: ".data, (" — " ++ body).data,
        by simp [pyErrorMessage, String.data_append]⟩
    · exact ⟨("API error: " ++ toString status ++ " — ").data, [],
        by simp [pyErrorMessage, String.data_append]⟩

/-- Concrete run for C2: with the translation service failing with HTTP 500,
ask aborts after the one translation call and surfaces status and body. -/
theorem ask_failure_semantics_witness :
    ask svcTranslateDown "Q" "Hindi" =
      (errorResult "Hindi" (PyError.httpError 500 "Internal Server Error"),
       [Call.translateCall "Q" "hi-IN" "en-IN"]) ∧
    strContains (pyErrorMessage (PyError.httpError 500 "Internal Server Error")) (toString 500) ∧
    strContains (pyErrorMessage (PyError.httpError 500 "Internal Server Error"))
      "Internal Server Error" := by
  refine ⟨(ask_failure_semantics svcTranslateDown "Q" "Hindi").2.1
      (PyError.httpError 500 "Internal Server Error") (by decide) rfl, ?_, ?_⟩
  · exact ((ask_failure_semantics svcTranslateDown "Q" "Hindi").2.2.2.2.2
      500 "Internal Server Error").2.1
  · exact ((ask_failure_semantics svcTranslateDown "Q" "Hindi").2.2.2.2.2
      500 "Internal Server Error").2.2

/-- C3: for every text and every pair of equal source and target language
codes, translate_text returns its input unchanged and issues no network
call. -/
theorem translate_text_identity (svc : Services) (text source_lang target_lang : String)
    (h : source_lang = target_lang) :
    translate_text svc text source_lang target_lang = (Except.ok text, []) := by
  simp [translate_text, h]

/-- Concrete run for C3 at equal language codes. -/
theorem translate_text_identity_witness :
    ("en-IN" : String) = "en-IN" ∧
    translate_text svcOk "hello" "en-IN" "en-IN" = (Except.ok "hello", []) :=
  ⟨rfl, translate_text_identity svcOk "hello" "en-IN" "en-IN" rfl⟩

/-- Helper: ask depends on the language argument only through its resolved
code, apart from the language field of the result. -/
theorem ask_code_determines (svc : Services) (query l1 l2 : String)
    (h : lookupLanguageCode l1 = lookupLanguageCode l2) :
    (ask svc query l1).2 = (ask svc query l2).2 ∧
    (ask svc query l1).1.answer = (ask svc query l2).1.answer ∧
    (ask svc query l1).1.error = (ask svc query l2).1.error := by
  unfold ask
  dsimp only
  rw [h]
  rcases h1 : askStep1 svc query (lookupLanguageCode l2) with ⟨r1, log1⟩
  cases r1 with
  | error e => exact ⟨rfl, rfl, rfl⟩
  | ok query_en =>
    dsimp only
    rcases h2 : retrieve_passages svc query_en 3 with ⟨r2, log2⟩
    cases r2 with
    | error e => exact ⟨rfl, rfl, rfl⟩
    | ok passages =>
      dsimp only
      rcases h3 : generate_answer svc query_en passages with ⟨r3, log3⟩
      cases r3 with
      | error e => exact ⟨rfl, rfl, rfl⟩
      | ok answer_en =>
        dsimp only
        rcases h4 : askStep4 svc answer_en (lookupLanguageCode l2) with ⟨r4, log4⟩
        cases r4 with
        | error e => exact ⟨rfl, rfl, rfl⟩
        | ok answer => exact ⟨rfl, rfl, rfl⟩

/-- C4: every supported display name resolves to its documented language
code from the LANGUAGE_CODES table; every other string resolves to the
English code en-IN, and ask then behaves exactly as it does for English
rather than failing. -/
theorem ask_language_resolution :
    (∀ name code, (name, code) ∈ LANGUAGE_CODES → lookupLanguageCode name = code) ∧
    (∀ s, s ∉ LANGUAGE_CODES.map Prod.fst → lookupLanguageCode s = "en-IN") ∧
    (∀ svc query s, s ∉ LANGUAGE_CODES.map Prod.fst →
       (ask svc query s).2 = (ask svc query "English").2 ∧
       (ask svc query s).1.answer = (ask svc query "English").1.answer ∧
       (ask svc query s).1.error = (ask svc query "English").1.error) := by
  have unknown : ∀ s : String, s ∉ LANGUAGE_CODES.map Prod.fst →
      lookupLanguageCode s = "en-IN" := by
    intro s h
    simp only [LANGUAGE_CODES, List.map_cons, List.map_nil, List.mem_cons, List.not_mem_nil,
      or_false, not_or] at h
    obtain ⟨h1, h2, h3, h4, h5, h6, h7, h8, h9, h10⟩ := h
    simp [lookupLanguageCode, LANGUAGE_CODES, List.lookup,
      beq_eq_false_iff_ne.mpr h1, beq_eq_false_iff_ne.mpr h2, beq_eq_false_iff_ne.mpr h3,
      beq_eq_false_iff_ne.mpr h4, beq_eq_false_iff_ne.mpr h5, beq_eq_false_iff_ne.mpr h6,
      beq_eq_false_iff_ne.mpr h7, beq_eq_false_iff_ne.mpr h8, beq_eq_false_iff_ne.mpr h9,
      beq_eq_false_iff_ne.mpr h10]
  refine ⟨?_, unknown, ?_⟩
  · intro name code h
    fin_cases h <;> rfl
  · intro svc query s h
    exact ask_code_determines svc query s "English" (unknown s h)

/-- Concrete runs for C4: a supported name, and an unsupported one falling
back to English behaviour. -/
theorem ask_language_resolution_witness :
    lookupLanguageCode "Hindi" = "hi-IN" ∧
    lookupLanguageCode "French" = "en-IN" ∧
    (ask svcOk "Q" "French").1.answer = (ask svcOk "Q" "English").1.answer :=
  ⟨ask_language_resolution.1 "Hindi" "hi-IN" (by decide),
   ask_language_resolution.2.1 "French" (by decide),
   (ask_language_resolution.2.2 svcOk "Q" "French" (by decide)).2.1⟩

/-- Helper: text_to_speech always submits exactly one synthesis request,
carrying the length-guarded text, the resolved code and the voice. -/
theorem text_to_speech_log (svc : Services) (text language : String) :
    (text_to_speech svc text language).2 =
      [Call.ttsCall (truncateForTts text) (lookupLanguageCode language)
        ((TTS_VOICES.lookup language).getD "shubh")] := by
  unfold text_to_speech
  dsimp only
  rcases h : svc.ttsConvert (truncateForTts text) (lookupLanguageCode language)
      ((TTS_VOICES.lookup language).getD "shubh") with e | al
  · rfl
  · cases al with
    | nil => rfl
    | cons first rest =>
      dsimp only
      rcases h2 : svc.b64decode first with e2 | bs <;> rfl

/-- Helper: the length-guarded text never exceeds 2500 code points, and a
truncated input has exactly 2493. -/
theorem truncateForTts_length (text : String) :
    (truncateForTts text).length ≤ 2500 ∧
    (text.length > 2500 → (truncateForTts text).length = 2493) := by
  unfold truncateForTts
  split
  · rename_i h
    have hd : text.length = text.data.length := rfl
    have hlen : (String.mk (text.data.take 2490) ++ "...").length = 2493 := by
      rw [String.length_append]
      have h1 : (String.mk (text.data.take 2490)).length = (text.data.take 2490).length := rfl
      rw [h1, List.length_take]
      have h3 : ("..." : String).length = 3 := rfl
      rw [h3]
      omega
    exact ⟨by omega, fun _ => hlen⟩
  · rename_i h
    exact ⟨by omega, fun hc => absurd hc h⟩

/-- C5: text_to_speech submits text of length at most 2500 unmodified to the
synthesis service, and for longer text submits the first 2490 code points
with the 3-character marker appended. -/
theorem tts_truncation (svc : Services) (text language : String) :
    (text_to_speech svc text language).2 =
      [Call.ttsCall (truncateForTts text) (lookupLanguageCode language)
        ((TTS_VOICES.lookup language).getD "shubh")] ∧
    (text.length ≤ 2500 → truncateForTts text = text) ∧
    (text.length > 2500 →
       truncateForTts text = String.mk (text.data.take 2490) ++ "..." ∧
       ("..." : String).length = 3) := by
  refine ⟨text_to_speech_log svc text language, ?_, ?_⟩
  · intro h
    simp [truncateForTts, Nat.not_lt.mpr h]
  · intro h
    exact ⟨by simp [truncateForTts, h], rfl⟩

/-- Concrete runs for C5: a short text passes through unmodified; a 2501
code-point text is truncated. -/
theorem tts_truncation_witness :
    (text_to_speech svcOk "hello" "Hindi").2 =
      [Call.ttsCall (truncateForTts "hello") "hi-IN" "anushka"] ∧
    truncateForTts "hello" = "hello" ∧
    truncateForTts longText = String.mk (longText.data.take 2490) ++ "..." := by
  have hlong : longText.length > 2500 := by
    show 2500 < (List.replicate 2501 'a').length
    rw [List.length_replicate]
    omega
  exact ⟨(tts_truncation svcOk "hello" "Hindi").1,
    (tts_truncation svcOk "hello" "Hindi").2.1 (by decide),
    ((tts_truncation svcOk longText "Hindi").2.2 hlong).1⟩

/-- Counterexample to C6 as stated: when retrieval fails, the dict returned
by ask for an English query omits the query_en key, so the returned query_en
field does not equal the original query. -/
theorem ask_query_en_counterexample :
    (ask svcRetrieveDown "Who is Hanuman?" "English").1.query_en ≠ some "Who is Hanuman?" := by
  decide

/-- C6 (amended): when ask is called with a language resolving to en-IN, the
Translation Service is never invoked, and whenever the result is a success
(error none) its query_en field equals the original query unchanged; on
error paths the query_en key is absent. -/
theorem ask_english_no_translation (svc : Services) (query language : String)
    (h : lookupLanguageCode language = "en-IN") :
    ((ask svc query language).2.all fun c => !c.isTranslateCall) = true ∧
    ((ask svc query language).1.error = none →
      (ask svc query language).1.query_en = some query) := by
  have h1 : askStep1 svc query (lookupLanguageCode language) = (Except.ok query, []) := by
    simp [askStep1, h]
  unfold ask
  dsimp only
  rw [h1]
  dsimp only
  rcases h2 : retrieve_passages svc query 3 with ⟨r2, log2⟩
  have hlog2 : log2 = [Call.retrieveCall query 3] := by
    have hl := retrieve_passages_log svc query 3
    rw [h2] at hl
    exact hl
  subst hlog2
  cases r2 with
  | error e => simp [Call.isTranslateCall, errorResult]
  | ok passages =>
    dsimp only
    rcases h3 : generate_answer svc query passages with ⟨r3, log3⟩
    have hlog3 : log3 = [Call.generateCall system_prompt (userMessage query passages)] := by
      have hl := generate_answer_log svc query passages
      rw [h3] at hl
      exact hl
    subst hlog3
    cases r3 with
    | error e => simp [Call.isTranslateCall, errorResult]
    | ok answer_en =>
      dsimp only
      have h4 : askStep4 svc answer_en (lookupLanguageCode language) =
          (Except.ok answer_en, []) := by
        simp [askStep4, h]
      rw [h4]
      simp [Call.isTranslateCall]

/-- Concrete run for C6 (amended): a successful English session issues no
translation call and echoes the query in query_en. -/
theorem ask_english_no_translation_witness :
    ((ask svcOk "Who is Hanuman?" "English").2.all fun c => !c.isTranslateCall) = true ∧
    (ask svcOk "Who is Hanuman?" "English").1.query_en = some "Who is Hanuman?" :=
  ⟨(ask_english_no_translation svcOk "Who is Hanuman?" "English" rfl).1,
   (ask_english_no_translation svcOk "Who is Hanuman?" "English" rfl).2 (by decide)⟩

/-- Counterexample to C7 as stated: translate_text does not swallow
exceptions at its own boundary; a failing translation service surfaces to
the caller of translate_text as a raised exception. -/
theorem translate_text_raw_exception :
    (translate_text svcTranslateDown "Who is Hanuman?" "hi-IN" "en-IN").1 =
      Except.error (PyError.httpError 500 "Internal Server Error") := rfl

/-- C7 (amended): speech_to_text and text_to_speech swallow exceptions at
their own boundary and convert them into a structured result with an error
field, while translate_text propagates a raised exception to its caller. -/
theorem adapter_exception_policy (svc : Services) (audio_bytes : List Nat)
    (text source_lang target_lang language : String) (e1 : PyError) (m : String) :
    (svc.stt audio_bytes (lookupLanguageCode language) = Except.error e1 →
        (speech_to_text svc audio_bytes language).1 =
          { transcript := "", language_code := lookupLanguageCode language,
            error := some (sttErrorMessage e1) }) ∧
    ((speech_to_text svc audio_bytes language).1.error = none ↔
        exceptIsOk (svc.stt audio_bytes (lookupLanguageCode language)) = true) ∧
    ((text_to_speech svc text language).1.audio_bytes.isSome ↔
        (text_to_speech svc text language).1.error = none) ∧
    (svc.ttsConvert (truncateForTts text) (lookupLanguageCode language)
        ((TTS_VOICES.lookup language).getD "shubh") = Except.error m →
        (text_to_speech svc text language).1 = { audio_bytes := none, error := some m }) ∧
    (source_lang ≠ target_lang →
        svc.translate text source_lang target_lang = Except.error e1 →
        (translate_text svc text source_lang target_lang).1 = Except.error e1) := by
  refine ⟨?_, ?_, ?_, ?_, ?_⟩
  · intro hstt
    simp [speech_to_text, hstt]
  · rcases hstt : svc.stt audio_bytes (lookupLanguageCode language) with e | r <;>
      simp [speech_to_text, hstt, exceptIsOk]
  · unfold text_to_speech
    dsimp only
    rcases hc : svc.ttsConvert (truncateForTts text) (lookupLanguageCode language)
        ((TTS_VOICES.lookup language).getD "shubh") with e | al
    · simp
    · cases al with
      | nil => simp
      | cons first rest =>
        dsimp only
        rcases hd : svc.b64decode first with e2 | bs <;> simp
  · intro hc
    simp [text_to_speech, hc]
  · intro hne htr
    simp [translate_text, hne, htr]

/-- Concrete runs for C7 (amended): failing transcription and synthesis
services yield structured error dicts, while a failing translation service
raises out of translate_text. -/
theorem adapter_exception_policy_witness :
    (speech_to_text svcAllDown [0] "Hindi").1 =
      { transcript := "", language_code := "hi-IN",
        error := some "STT error: 503 — Service Unavailable" } ∧
    (text_to_speech svcAllDown "hello" "Hindi").1 =
      { audio_bytes := none, error := some "timeout" } ∧
    (translate_text svcAllDown "hello" "hi-IN" "en-IN").1 =
      Except.error (PyError.otherError "connection refused") := by
  refine ⟨?_, ?_, ?_⟩
  · exact (adapter_exception_policy svcAllDown [0] "hello" "hi-IN" "en-IN" "Hindi"
      (PyError.httpError 503 "Service Unavailable") "timeout").1 rfl
  · exact (adapter_exception_policy svcAllDown [0] "hello" "hi-IN" "en-IN" "Hindi"
      (PyError.httpError 503 "Service Unavailable") "timeout").2.2.2.1 rfl
  · exact (adapter_exception_policy svcAllDown [0] "hello" "hi-IN" "en-IN" "Hindi"
      (PyError.otherError "connection refused") "timeout").2.2.2.2 (by decide) rfl

/-- C8: when retrieval succeeds with zero passages, ask does not treat this
as an error: it proceeds to generation with an empty context block and
returns a success dict with error none and the generated answer. -/
theorem ask_empty_retrieval (svc : Services) (query language query_en a ans : String)
    (log1 log4 : List Call)
    (h1 : askStep1 svc query (lookupLanguageCode language) = (Except.ok query_en, log1))
    (h2 : svc.retrieveRaw query_en 3 = Except.ok [])
    (h3 : svc.generate system_prompt (userMessage query_en []) = Except.ok a)
    (h4 : askStep4 svc a.trim (lookupLanguageCode language) = (Except.ok ans, log4)) :
    contextBlock [] = "" ∧
    ask svc query language =
      ({ answer := some ans, passages := [], language := language,
         query_en := some query_en, error := none },
       log1 ++ [Call.retrieveCall query_en 3] ++
         [Call.generateCall system_prompt (userMessage query_en [])] ++ log4) := by
  have h2f : retrieve_passages svc query_en 3 =
      (Except.ok [], [Call.retrieveCall query_en 3]) := by
    simp [retrieve_passages, h2]
  have h3f : generate_answer svc query_en [] =
      (Except.ok a.trim, [Call.generateCall system_prompt (userMessage query_en [])]) := by
    simp [generate_answer, h3]
  refine ⟨rfl, ?_⟩
  unfold ask
  dsimp only
  rw [h1]
  dsimp only
  rw [h2f]
  dsimp only
  rw [h3f]
  dsimp only
  rw [h4]

/-- Concrete run for C8: an empty passage store still produces a generated
answer with error none. -/
theorem ask_empty_retrieval_witness :
    contextBlock [] = "" ∧
    ask svcEmptyStore "Who is Hanuman?" "English" =
      ({ answer := some ("Hanuman is the mighty son of Vayu.".trim),
         passages := [], language := "English",
         query_en := some "Who is Hanuman?", error := none },
       [] ++ [Call.retrieveCall "Who is Hanuman?" 3] ++
         [Call.generateCall system_prompt (userMessage "Who is Hanuman?" [])] ++ []) :=
  ask_empty_retrieval svcEmptyStore "Who is Hanuman?" "English" "Who is Hanuman?"
    "Hanuman is the mighty son of Vayu." ("Hanuman is the mighty son of Vayu.".trim) [] []
    rfl rfl rfl rfl

/-- C9: on the success path and on every error path, the language field of
the dict returned by ask equals the language argument exactly as passed in,
not the resolved language code. -/
theorem ask_language_passthrough (svc : Services) (query language : String) :
    (ask svc query language).1.language = language := by
  rcases ask_shape svc query language with ⟨e, h⟩ | ⟨query_en, answer, passages, h⟩
  · rw [h]; rfl
  · rw [h]

/-- C10: the text text_to_speech submits to the synthesis service always has
length at most 2500 code points, and a truncated input becomes exactly 2493,
so the service length limit is never exceeded by this adapter. -/
theorem tts_length_safety (svc : Services) (text language : String) :
    (text_to_speech svc text language).2 =
      [Call.ttsCall (truncateForTts text) (lookupLanguageCode language)
        ((TTS_VOICES.lookup language).getD "shubh")] ∧
    (truncateForTts text).length ≤ 2500 ∧
    (text.length > 2500 → (truncateForTts text).length = 2493) :=
  ⟨text_to_speech_log svc text language, (truncateForTts_length text).1,
   (truncateForTts_length text).2⟩

/-- Concrete run for C10: the 2501 code-point input is submitted with
exactly 2493 code points. -/
theorem tts_length_safety_witness :
    (text_to_speech svcOk longText "English").2 =
      [Call.ttsCall (truncateForTts longText) "en-IN" "shubh"] ∧
    (truncateForTts longText).length ≤ 2500 ∧
    (truncateForTts longText).length = 2493 := by
  have hlong : longText.length > 2500 := by
    show 2500 < (List.replicate 2501 'a').length
    rw [List.length_replicate]
    omega
  exact ⟨(tts_length_safety svcOk longText "English").1,
    (tts_length_safety svcOk longText "English").2.1,
    (tts_length_safety svcOk longText "English").2.2 hlong⟩
